import Mathlib

/-!
Verification of the Bluetooth blood-pressure decoder and connection lifecycle
of the htn-prevention-app repository.

The embedded code comes from `client/src/services/bluetoothBP.js`
(SFLOAT decoder `_parseSFLOAT`, record parser `_parseMeasurement`,
connection manager `connectToDevice` / `disconnect` / `_handleDisconnection`,
event hub `addEventListener` / `_notifyListeners`) and from the parser
utilities module (`calculateHTNStatus`).

Modelling conventions:
* a raw notification buffer is a `List Nat` of bytes; `DataView` accessors
  return `Option` values, `none` standing for the `RangeError` thrown by an
  out-of-bounds read;
* JavaScript numbers are modelled as exact rationals; the values produced by
  the SFLOAT decoder (a number, `NaN`, `±Infinity` or `null`) form the
  inductive type `JSNum`;
* `Math.round x` is `⌊x + 1/2⌋`, which agrees with JavaScript on exact inputs;
* the asynchronous Web Bluetooth transport is abstracted by records that fix
  the outcome of each transport call, and the stateful service object is
  passed explicitly as a record of its four nullable references.
-/

namespace HTN

/-! ## Definitions -/

/-- A JavaScript value produced by the SFLOAT decoder: an ordinary number
(modelled as an exact rational), `NaN`, `Infinity`, `-Infinity` or `null`. -/
inductive JSNum where
  | num (q : ℚ)
  | nan
  | posInf
  | negInf
  | null
deriving DecidableEq, Repr

/-- The signed value `DataView.getInt16` yields for the 16-bit word `w`. -/
def int16OfWord (w : Nat) : ℤ :=
  if w < 32768 then (w : ℤ) else (w : ℤ) - 65536

/-- `value & 0x0FFF` in JavaScript: the operand is converted to a 32-bit
two's-complement integer and masked to its low 12 bits. -/
def jsAnd0FFF (value : ℤ) : ℤ :=
  value % 4294967296 % 4096

/-- `value >> 12` in JavaScript: an arithmetic (sign-propagating) right shift,
i.e. floor division by `2 ^ 12`. -/
def jsShr12 (value : ℤ) : ℤ :=
  Int.fdiv value 4096

/-- The line `const mantissa = value & 0x0FFF;` followed by
`const mantissaValue = (mantissa >= 0x0800) ? -(0x1000 - mantissa) : mantissa;`
of `_parseSFLOAT`. -/
def sfloatMantissaValue (value : ℤ) : ℤ :=
  if 2048 ≤ jsAnd0FFF value then -(4096 - jsAnd0FFF value) else jsAnd0FFF value

/-- The lines `let exponent = value >> 12;` followed by
`if (exponent >= 0x08) exponent = -((0x0F - exponent) + 1);` of `_parseSFLOAT`. -/
def sfloatCodeExponent (value : ℤ) : ℤ :=
  if 8 ≤ jsShr12 value then -((15 - jsShr12 value) + 1) else jsShr12 value

/-- The final `return mantissaValue * Math.pow(10, exponent);` of
`_parseSFLOAT`. -/
def sfloatNumValue (value : ℤ) : JSNum :=
  JSNum.num ((sfloatMantissaValue value : ℚ) * (10 : ℚ) ^ sfloatCodeExponent value)

/-- `_parseSFLOAT` from `bluetoothBP.js`, as a function of the 16-bit
little-endian word it reads via `getInt16`. -/
def parseSFLOATword (w : Nat) : JSNum :=
  if int16OfWord w = 2047 then JSNum.nan          -- 0x07FF: Not a Number
  else if int16OfWord w = 2048 then JSNum.nan     -- 0x0800: Not at this Resolution
  else if int16OfWord w = 2046 then JSNum.posInf  -- 0x07FE: Positive Infinity
  else if int16OfWord w = 2050 then JSNum.negInf  -- 0x0802: Negative Infinity
  else if int16OfWord w = 2049 then JSNum.null    -- 0x0801: Reserved
  else sfloatNumValue (int16OfWord w)

/-- Mantissa of a 16-bit SFLOAT word following the specification text: the
low 12 bits read as 12-bit two's complement. -/
def sfloatSpecMantissa (w : Nat) : ℤ :=
  if 2048 ≤ w % 4096 then ((w % 4096 : Nat) : ℤ) - 4096 else ((w % 4096 : Nat) : ℤ)

/-- Exponent of a 16-bit SFLOAT word following the specification text: the
high 4 bits read as 4-bit two's complement. -/
def sfloatSpecExponent (w : Nat) : ℤ :=
  if 8 ≤ w / 4096 then -((15 - ((w / 4096 : Nat) : ℤ)) + 1) else ((w / 4096 : Nat) : ℤ)

/-- Value of a non-reserved SFLOAT word following the specification text:
`mantissa_value * 10 ^ exponent`. -/
def sfloatSpecValue (w : Nat) : ℚ :=
  (sfloatSpecMantissa w : ℚ) * (10 : ℚ) ^ sfloatSpecExponent w

/-- `calculateHTNStatus` from the parser utilities module: the if/else-if
chain classifying a (systolic, diastolic) pair per AHA guidelines. -/
def calculateHTNStatus (systolic diastolic : ℚ) : String :=
  if 180 ≤ systolic ∨ 120 ≤ diastolic then "Crisis"
  else if 140 ≤ systolic ∨ 90 ≤ diastolic then "Stage 2"
  else if 130 ≤ systolic ∨ 80 ≤ diastolic then "Stage 1"
  else if 120 ≤ systolic ∧ diastolic < 80 then "Elevated"
  else "Normal"

/-- The result of the first matching rule in an ordered rule list, with a
default for when no rule matches. -/
def firstMatchResult : List (Bool × String) → String → String
  | [], dflt => dflt
  | (c, r) :: rest, dflt => if c then r else firstMatchResult rest dflt

/-- The specification's classification table, as an ordered rule list: rules
are evaluated in the listed priority order and the first match wins, with
`"Normal"` the otherwise-case. -/
def htnSpecClassify (s d : ℚ) : String :=
  firstMatchResult
    [ (decide (180 ≤ s) || decide (120 ≤ d), "Crisis"),
      (decide (140 ≤ s) || decide (90 ≤ d), "Stage 2"),
      (decide (130 ≤ s) || decide (80 ≤ d), "Stage 1"),
      (decide (120 ≤ s) && decide (d < 80), "Elevated") ]
    "Normal"

/-- `DataView.getUint8`: `none` models the `RangeError` thrown when the read
is out of bounds. -/
def getUint8 (buf : List Nat) (i : Nat) : Option Nat := buf[i]?

/-- `DataView.getUint16(_, true)`: the little-endian 16-bit word at `i`;
`none` models the `RangeError` thrown when the read is out of bounds. -/
def getUint16LE (buf : List Nat) (i : Nat) : Option Nat :=
  match buf[i]?, buf[i + 1]? with
  | some b0, some b1 => some (b0 + 256 * b1)
  | _, _ => none

/-- `_parseSFLOAT(dataView, offset)` on a byte buffer: a little-endian 16-bit
read followed by the pure word decoder. -/
def parseSFLOAT (buf : List Nat) (offset : Nat) : Option JSNum :=
  (getUint16LE buf offset).map parseSFLOATword

/-- `Math.round` on an exact rational: floor of `q + 1/2`, which is what
JavaScript computes for representable inputs. -/
def jround (q : ℚ) : ℤ := ⌊q + 1 / 2⌋

/-- `1 kPa = 7.50062 mmHg`, the conversion factor in `_parseMeasurement`. -/
def kPaFactor : ℚ := 750062 / 100000

/-- JavaScript multiplication of an SFLOAT decode result by the positive
constant `7.50062`: `NaN` and the infinities propagate, and `null` coerces
to `0`. -/
def jsMulKPa (x : JSNum) : JSNum :=
  match x with
  | JSNum.num q => JSNum.num (q * kPaFactor)
  | JSNum.nan => JSNum.nan
  | JSNum.posInf => JSNum.posInf
  | JSNum.negInf => JSNum.negInf
  | JSNum.null => JSNum.num 0

/-- `Math.round` on an SFLOAT decode result: `NaN` and the infinities are
fixed points, and `null` coerces to `0`. -/
def jsRound (x : JSNum) : JSNum :=
  match x with
  | JSNum.num q => JSNum.num ((jround q : ℤ) : ℚ)
  | JSNum.nan => JSNum.nan
  | JSNum.posInf => JSNum.posInf
  | JSNum.negInf => JSNum.negInf
  | JSNum.null => JSNum.num 0

/-- `isKPa ? Math.round(value * 7.50062) : value` from `_parseMeasurement`. -/
def convertBP (isKPa : Bool) (x : JSNum) : JSNum :=
  if isKPa then jsRound (jsMulKPa x) else x

/-- The seven raw timestamp fields of the measurement record. The source
builds `new Date(year, month - 1, day, hours, minutes, seconds)` from them;
we keep the raw device-local fields. -/
structure BPDateTime where
  year : Nat
  month : Nat
  day : Nat
  hours : Nat
  minutes : Nat
  seconds : Nat
deriving DecidableEq, Repr

/-- The five named booleans produced by `_parseMeasurementStatus`. -/
structure MeasurementStatus where
  bodyMovementDetected : Bool
  cuffFitError : Bool
  irregularPulseDetected : Bool
  pulseRateOutOfRange : Bool
  measurementPositionImproper : Bool
deriving DecidableEq, Repr

/-- `_parseMeasurementStatus`: the five low bits of the 16-bit status word. -/
def parseMeasurementStatus (statusFlags : Nat) : MeasurementStatus :=
  ⟨statusFlags &&& 1 = 1, statusFlags &&& 2 = 2, statusFlags &&& 4 = 4,
   statusFlags &&& 8 = 8, statusFlags &&& 16 = 16⟩

/-- The decoded measurement record. `timestamp: new Date()` (host receive
time) is environment input, not derived from the buffer, and is omitted. -/
structure Measurement where
  systolic : JSNum
  diastolic : JSNum
  meanArterialPressure : JSNum
  originalUnit : String
  deviceTimestamp : Option BPDateTime
  heartRate : Option JSNum
  userId : Option Nat
  status : Option MeasurementStatus
deriving DecidableEq, Repr

/-- The seven timestamp bytes (year as little-endian 16-bit word, then month,
day, hours, minutes, seconds) read at cursor `i`. -/
def readTimestamp (buf : List Nat) (i : Nat) : Option BPDateTime :=
  match getUint16LE buf i, getUint8 buf (i + 2), getUint8 buf (i + 3),
      getUint8 buf (i + 4), getUint8 buf (i + 5), getUint8 buf (i + 6) with
  | some year, some month, some day, some hours, some minutes, some seconds =>
      some ⟨year, month, day, hours, minutes, seconds⟩
  | _, _, _, _, _, _ => none

/-- Step 5 of `_parseMeasurement`: measurement status (flag bit 4), two
bytes. -/
def parseStatusField (buf : List Nat) (flags : Nat) (m : Measurement)
    (index : Nat) : Option (Measurement × Nat) :=
  if flags &&& 16 = 16 then
    match getUint16LE buf index with
    | some statusFlags =>
        some ({ m with status := some (parseMeasurementStatus statusFlags) }, index + 2)
    | none => none
  else some (m, index)

/-- Step 4 of `_parseMeasurement`: user id (flag bit 3), one byte. -/
def parseUserIdField (buf : List Nat) (flags : Nat) (m : Measurement)
    (index : Nat) : Option (Measurement × Nat) :=
  if flags &&& 8 = 8 then
    match getUint8 buf index with
    | some u => parseStatusField buf flags { m with userId := some u } (index + 1)
    | none => none
  else parseStatusField buf flags m index

/-- Step 3 of `_parseMeasurement`: pulse rate (flag bit 2), one SFLOAT,
rounded — the source applies no unit conversion to the pulse. -/
def parsePulseField (buf : List Nat) (flags : Nat) (m : Measurement)
    (index : Nat) : Option (Measurement × Nat) :=
  if flags &&& 4 = 4 then
    match parseSFLOAT buf index with
    | some pulseRate =>
        parseUserIdField buf flags { m with heartRate := some (jsRound pulseRate) } (index + 2)
    | none => none
  else parseUserIdField buf flags m index

/-- Step 2 of `_parseMeasurement`: device timestamp (flag bit 1), seven
bytes. -/
def parseTimestampField (buf : List Nat) (flags : Nat) (m : Measurement)
    (index : Nat) : Option (Measurement × Nat) :=
  if flags &&& 2 = 2 then
    match readTimestamp buf index with
    | some ts => parsePulseField buf flags { m with deviceTimestamp := some ts } (index + 7)
    | none => none
  else parsePulseField buf flags m index

/-- `_parseMeasurement` from `bluetoothBP.js`, also returning the final value
of the running cursor `index`. -/
def parseMeasurementAux (buf : List Nat) : Option (Measurement × Nat) :=
  match getUint8 buf 0 with
  | none => none
  | some flags =>
    match parseSFLOAT buf 1, parseSFLOAT buf 3, parseSFLOAT buf 5 with
    | some systolic, some diastolic, some meanArterialPressure =>
        parseTimestampField buf flags
          ⟨convertBP (flags &&& 1 == 1) systolic,
           convertBP (flags &&& 1 == 1) diastolic,
           convertBP (flags &&& 1 == 1) meanArterialPressure,
           if flags &&& 1 == 1 then "kPa" else "mmHg",
           none, none, none, none⟩ 7
    | _, _, _ => none

/-- `_parseMeasurement`'s return value. -/
def parseMeasurement (buf : List Nat) : Option Measurement :=
  (parseMeasurementAux buf).map Prod.fst

/-- Bytes the timestamp field consumes, per the flags byte. -/
def tsLen (flags : Nat) : Nat := if flags &&& 2 = 2 then 7 else 0

/-- Bytes the pulse-rate field consumes, per the flags byte. -/
def pulseLen (flags : Nat) : Nat := if flags &&& 4 = 4 then 2 else 0

/-- Bytes the user-id field consumes, per the flags byte. -/
def userIdLen (flags : Nat) : Nat := if flags &&& 8 = 8 then 1 else 0

/-- Bytes the status field consumes, per the flags byte. -/
def statusLen (flags : Nat) : Nat := if flags &&& 16 = 16 then 2 else 0

/-- Total number of bytes the flags byte demands: one flags byte, three
2-byte SFLOAT pressures, then the optional fields. -/
def demandedLen (flags : Nat) : Nat :=
  7 + tsLen flags + pulseLen flags + userIdLen flags + statusLen flags

/-- The little-endian 16-bit word formed by bytes `i` and `i + 1`, with
out-of-range reads defaulting to `0` (used only below the buffer length). -/
def wordAt (buf : List Nat) (i : Nat) : Nat :=
  buf.getD i 0 + 256 * buf.getD (i + 1) 0

/-- Concrete 19-byte buffer with flags `0x1E` (timestamp, pulse, user id and
status all present, units mmHg): pressures 120/80/93, timestamp
2025-08-27 14:30:45, pulse 70, user id 1, status bitmap 0x0007. -/
def c2buf : List Nat :=
  [30, 176, 244, 32, 243, 162, 243, 233, 7, 8, 27, 14, 30, 45, 188, 242, 1, 7, 0]

/-- Events the service publishes through `_notifyListeners`. -/
inductive EmittedEvent where
  | measurement (m : Measurement)
  | disconnected (unexpected : Bool)
deriving DecidableEq, Repr

/-- `_handleMeasurement`: parses the notification payload and fans it out as
a `measurement` event. The body has no try/catch, so the `RangeError` a
too-short buffer raises in `_parseMeasurement` escapes the handler
(modelled as `Except.error`). -/
def handleMeasurement (buf : List Nat) : Except String (List EmittedEvent) :=
  match parseMeasurement buf with
  | some m => Except.ok [EmittedEvent.measurement m]
  | none => Except.error "RangeError"

/-- Concrete 9-byte buffer with flags `0x05` (kPa units, pulse present):
pressures 16.0 / 10.7 / 12.4 kPa and pulse SFLOAT word 70 (70 bpm). -/
def c4buf : List Nat := [5, 160, 240, 107, 240, 124, 240, 70, 0]

/-- The four nullable references the service object holds; `true` means the
reference is set, `false` that it is `null`. -/
structure ConnRefs where
  device : Bool
  server : Bool
  service : Bool
  measurementCharacteristic : Bool
deriving DecidableEq, Repr

/-- The state `_cleanup()` leaves behind: all four references `null`. -/
def cleanedRefs : ConnRefs := ⟨false, false, false, false⟩

/-- `_cleanup()`: nulls every reference whatever the state was. -/
def cleanup (_ : ConnRefs) : ConnRefs := cleanedRefs

/-- `isConnected()`: `!!(this.device && this.device.gatt && this.device.gatt.connected)`;
the transport-side `gatt.connected` bit is the second argument. -/
def isConnected (s : ConnRefs) (devConnected : Bool) : Bool :=
  s.device && devConnected

/-- Transport-side facts `disconnect()` consults: whether the
characteristic's device and the held device report a live GATT connection,
and whether `stopNotifications()` rejects. -/
structure DisconnectEnv where
  charConnected : Bool
  devConnected : Bool
  stopNotificationsFails : Bool
deriving DecidableEq, Repr

/-- Transport calls `disconnect()` can make. -/
inductive TransportCall where
  | stopNotifications
  | gattDisconnect
deriving DecidableEq, Repr

/-- What one `disconnect()` run did: the state left behind, the events
published through the hub, the transport calls made, the warnings logged by
the catch around `stopNotifications`, and an exception escaping the method
(`none`: it returned normally). -/
structure DisconnectResult where
  refs : ConnRefs
  events : List EmittedEvent
  calls : List TransportCall
  logs : List String
  thrown : Option String
deriving DecidableEq, Repr

/-- `disconnect()` from `bluetoothBP.js`: best-effort `stopNotifications`
(its failure is caught and logged by the try/catch), then
`gatt.disconnect()` when still connected (a void call that does not throw),
then `_cleanup()`. The method publishes no event. -/
def disconnect (s : ConnRefs) (env : DisconnectEnv) : DisconnectResult :=
  let callsStop : List TransportCall :=
    if s.measurementCharacteristic && env.charConnected then
      [TransportCall.stopNotifications]
    else []
  let warnings : List String :=
    if s.measurementCharacteristic && env.charConnected && env.stopNotificationsFails then
      ["Error stopping notifications"]
    else []
  let callsGatt : List TransportCall :=
    if s.device && env.devConnected then [TransportCall.gattDisconnect] else []
  ⟨cleanup s, [], callsStop ++ callsGatt, warnings, none⟩

/-- `_handleDisconnection()`: the `gattserverdisconnected` callback — cleans
up and publishes `disconnected` tagged `unexpected: true`. -/
def handleDisconnection (s : ConnRefs) : ConnRefs × List EmittedEvent :=
  (cleanup s, [EmittedEvent.disconnected true])

/-- The UUIDs the service passes to the transport: the standard Blood
Pressure service, the Omron vendor service `0xFE4A`, the measurement
characteristic `0x2A35` and the feature characteristic `0x2A49`. -/
inductive UUIDKey where
  | standardBP
  | omron
  | bpMeasurement
  | bpFeature
deriving DecidableEq, Repr

/-- Outcomes of the transport calls `connectToDevice()` awaits; an
`Except.error` models the awaited promise rejecting. -/
structure Transport where
  bluetoothAvailable : Bool
  requestDeviceResult : Except String Unit
  gattConnectResult : Except String Unit
  getPrimaryServiceResult : UUIDKey → Except String Unit
  getCharacteristicResult : UUIDKey → Except String Unit
  supportsIndicateOrNotify : Bool
  startNotificationsResult : Except String Unit

/-- What one `connectToDevice()` run did: the state left behind, the
outcome (`ok`: the device-info object is returned), and the
`getPrimaryService` calls made, in order. -/
structure ConnectResult where
  refs : ConnRefs
  outcome : Except String Unit
  svcCalls : List UUIDKey

/-- The tail of `connectToDevice()` after service discovery: get the
measurement characteristic, subscribe (`_startNotifications` throws when the
characteristic supports neither indicate nor notify), then `_readFeatures`
— which swallows its own failures and so cannot change the outcome. Every
failure lands in the catch block: `_cleanup()` then rethrow. -/
def connectAfterService (t : Transport) (s : ConnRefs) (svcCalls : List UUIDKey) :
    ConnectResult :=
  match t.getCharacteristicResult UUIDKey.bpMeasurement with
  | Except.error e => ⟨cleanedRefs, Except.error e, svcCalls⟩
  | Except.ok _ =>
    if t.supportsIndicateOrNotify then
      match t.startNotificationsResult with
      | Except.error e => ⟨cleanedRefs, Except.error e, svcCalls⟩
      | Except.ok _ =>
        ⟨{ s with measurementCharacteristic := true }, Except.ok (), svcCalls⟩
    else ⟨cleanedRefs, Except.error "Device does not support notifications/indications", svcCalls⟩

/-- `connectToDevice()` from `bluetoothBP.js`. The unsupported-browser check
throws before the try block (no cleanup); inside the try, any rejection is
caught, `_cleanup()` runs and the error is rethrown. Service discovery tries
the standard UUID and, only if that lookup throws, the vendor UUID once. -/
def connectToDevice (t : Transport) (s : ConnRefs) : ConnectResult :=
  if t.bluetoothAvailable = false then
    ⟨s, Except.error "Web Bluetooth is not supported in this browser", []⟩
  else
    match t.requestDeviceResult with
    | Except.error e => ⟨cleanedRefs, Except.error e, []⟩
    | Except.ok _ =>
      match t.gattConnectResult with
      | Except.error e => ⟨cleanedRefs, Except.error e, []⟩
      | Except.ok _ =>
        match t.getPrimaryServiceResult UUIDKey.standardBP with
        | Except.ok _ =>
          connectAfterService t
            { device := true, server := true, service := true,
              measurementCharacteristic := s.measurementCharacteristic }
            [UUIDKey.standardBP]
        | Except.error _ =>
          match t.getPrimaryServiceResult UUIDKey.omron with
          | Except.error e =>
            ⟨cleanedRefs, Except.error e, [UUIDKey.standardBP, UUIDKey.omron]⟩
          | Except.ok _ =>
            connectAfterService t
              { device := true, server := true, service := true,
                measurementCharacteristic := s.measurementCharacteristic }
              [UUIDKey.standardBP, UUIDKey.omron]

/-- A transport on which every call succeeds. -/
def tOk : Transport :=
  ⟨true, Except.ok (), Except.ok (), fun _ => Except.ok (), fun _ => Except.ok (),
   true, Except.ok ()⟩

/-- A transport whose device chooser rejects (e.g. the user cancelled). -/
def tCancel : Transport :=
  ⟨true, Except.error "User cancelled", Except.ok (), fun _ => Except.ok (),
   fun _ => Except.ok (), true, Except.ok ()⟩

/-- A subscriber callback: `id` is its identity, `throws` whether invoking
it raises. -/
structure Listener where
  id : Nat
  throws : Bool
deriving DecidableEq, Repr

/-- `this.listeners`: a `Map` from event name to a `Set` of callbacks,
both iterated in insertion order (the map never holds a key twice). -/
abbrev EventHub : Type := List (String × List Listener)

/-- `Set.add`: appends a callback not already present, keeps the set
unchanged (and the original position) otherwise. -/
def setAdd (l : List Listener) (c : Listener) : List Listener :=
  if c ∈ l then l else l ++ [c]

/-- `this.listeners.has(event)`. -/
def hubHas : EventHub → String → Bool
  | [], _ => false
  | p :: t, event => p.1 == event || hubHas t event

/-- `addEventListener(event, callback)`: creates the event's empty set when
absent, then adds the callback to it. -/
def addEventListener (hub : EventHub) (event : String) (c : Listener) : EventHub :=
  let hub1 := if hubHas hub event then hub else hub ++ [(event, [])]
  hub1.map fun p => if p.1 == event then (p.1, setAdd p.2 c) else p

/-- `this.listeners.get(event)`, with `[]` for an absent event. -/
def getListeners : EventHub → String → List Listener
  | [], _ => []
  | p :: t, event => if p.1 == event then p.2 else getListeners t event

/-- `callback(data)`: raises exactly when the listener throws. -/
def invokeListener (c : Listener) : Except String Unit :=
  if c.throws then Except.error "listener threw" else Except.ok ()

/-- The `forEach` over the set with its per-iteration try/catch: each
callback is invoked with the payload; a raised error is caught and logged
(`console.error`) and iteration continues with the next callback. Returns
the invocations made (callback id, payload) in order and the errors
logged. -/
def notifyLoop (l : List Listener) (payload : EmittedEvent) :
    List (Nat × EmittedEvent) × List String :=
  match l with
  | [] => ([], [])
  | c :: rest =>
    let r := invokeListener c
    let tail := notifyLoop rest payload
    ((c.id, payload) :: tail.1,
      (match r with | Except.ok _ => [] | Except.error e => [e]) ++ tail.2)

/-- `_notifyListeners(event, data)`: nothing happens for an event with no
entry; otherwise the `forEach` above. -/
def notifyListeners (hub : EventHub) (event : String) (payload : EmittedEvent) :
    List (Nat × EmittedEvent) × List String :=
  if hubHas hub event then notifyLoop (getListeners hub event) payload else ([], [])

/-! ## Lemmas and theorems -/

lemma jsAnd0FFF_int16 (w : Nat) (hw : w < 65536) :
    jsAnd0FFF (int16OfWord w) = ((w % 4096 : Nat) : ℤ) := by
  unfold jsAnd0FFF int16OfWord
  have h4096 : (4096 : ℤ) ∣ 4294967296 := ⟨1048576, by norm_num⟩
  split <;> rw [Int.emod_emod_of_dvd _ h4096] <;> omega

lemma jsShr12_int16 (w : Nat) (hw : w < 65536) :
    jsShr12 (int16OfWord w) = sfloatSpecExponent w := by
  unfold jsShr12 int16OfWord sfloatSpecExponent
  rw [Int.fdiv_eq_ediv _ (by norm_num)]
  split <;> split <;> omega

lemma sfloatSpecExponent_le (w : Nat) (hw : w < 65536) : sfloatSpecExponent w ≤ 7 := by
  unfold sfloatSpecExponent
  split <;> omega

lemma code_mantissaValue_eq (w : Nat) (hw : w < 65536) :
    sfloatMantissaValue (int16OfWord w) = sfloatSpecMantissa w := by
  unfold sfloatMantissaValue sfloatSpecMantissa
  rw [jsAnd0FFF_int16 w hw]
  split_ifs <;> omega

lemma code_exponent_eq (w : Nat) (hw : w < 65536) :
    sfloatCodeExponent (int16OfWord w) = sfloatSpecExponent w := by
  unfold sfloatCodeExponent
  rw [jsShr12_int16 w hw,
      if_neg (by have := sfloatSpecExponent_le w hw; omega)]

lemma parseSFLOATword_nonreserved (w : Nat) (hw : w < 65536)
    (h1 : w ≠ 2047) (h2 : w ≠ 2048) (h3 : w ≠ 2046) (h4 : w ≠ 2050) (h5 : w ≠ 2049) :
    parseSFLOATword w = JSNum.num (sfloatSpecValue w) := by
  have hv1 : int16OfWord w ≠ 2047 := by unfold int16OfWord; split <;> omega
  have hv2 : int16OfWord w ≠ 2048 := by unfold int16OfWord; split <;> omega
  have hv3 : int16OfWord w ≠ 2046 := by unfold int16OfWord; split <;> omega
  have hv4 : int16OfWord w ≠ 2050 := by unfold int16OfWord; split <;> omega
  have hv5 : int16OfWord w ≠ 2049 := by unfold int16OfWord; split <;> omega
  unfold parseSFLOATword
  rw [if_neg hv1, if_neg hv2, if_neg hv3, if_neg hv4, if_neg hv5]
  unfold sfloatNumValue sfloatSpecValue
  rw [code_mantissaValue_eq w hw, code_exponent_eq w hw]

lemma parseSFLOATword_num (w : Nat) (q : ℚ) (hw : w < 65536)
    (h1 : w ≠ 2047) (h2 : w ≠ 2048) (h3 : w ≠ 2046) (h4 : w ≠ 2050) (h5 : w ≠ 2049)
    (hq : sfloatSpecValue w = q) :
    parseSFLOATword w = JSNum.num q := by
  rw [parseSFLOATword_nonreserved w hw h1 h2 h3 h4 h5, hq]

/-- **C1.** For every 16-bit word outside the five reserved codes, the SFLOAT
decoder returns `mantissa_value * 10 ^ exponent` with the mantissa the low
12 bits as 12-bit two's complement and the exponent the high 4 bits as 4-bit
two's complement; the reserved codes `0x07FF`, `0x0800`, `0x07FE`, `0x0802`,
`0x0801` decode to `NaN`, `NaN`, `+Infinity`, `-Infinity`, `null`. -/
theorem sfloat_decoder_matches_spec :
    (∀ w : Nat, w < 65536 →
      w ≠ 2047 → w ≠ 2048 → w ≠ 2046 → w ≠ 2050 → w ≠ 2049 →
      parseSFLOATword w = JSNum.num (sfloatSpecValue w)) ∧
    parseSFLOATword 2047 = JSNum.nan ∧
    parseSFLOATword 2048 = JSNum.nan ∧
    parseSFLOATword 2046 = JSNum.posInf ∧
    parseSFLOATword 2050 = JSNum.negInf ∧
    parseSFLOATword 2049 = JSNum.null :=
  ⟨parseSFLOATword_nonreserved, by decide, by decide, by decide, by decide, by decide⟩

/-- Witness for C1 at the word `0xF4B0` (mantissa 1200, exponent −1),
which decodes to 120. -/
theorem sfloat_decoder_matches_spec_witness :
    parseSFLOATword 62640 = JSNum.num (sfloatSpecValue 62640) :=
  sfloat_decoder_matches_spec.1 62640 (by decide) (by decide) (by decide)
    (by decide) (by decide) (by decide)

/-- **C3.** The clinical classifier agrees with the specification's threshold
table evaluated in priority order with the first matching rule winning, and
reproduces the spec's example table: (110,70) Normal, (125,75) Elevated,
(135,85) Stage 1, (150,95) Stage 2, (190,125) Crisis. -/
theorem classifier_matches_spec_table :
    (∀ s d : ℚ, calculateHTNStatus s d = htnSpecClassify s d) ∧
    calculateHTNStatus 110 70 = "Normal" ∧
    calculateHTNStatus 125 75 = "Elevated" ∧
    calculateHTNStatus 135 85 = "Stage 1" ∧
    calculateHTNStatus 150 95 = "Stage 2" ∧
    calculateHTNStatus 190 125 = "Crisis" := by
  refine ⟨?_, by norm_num [calculateHTNStatus], by norm_num [calculateHTNStatus],
    by norm_num [calculateHTNStatus], by norm_num [calculateHTNStatus],
    by norm_num [calculateHTNStatus]⟩
  intro s d
  simp only [calculateHTNStatus, htnSpecClassify, firstMatchResult,
    Bool.or_eq_true, Bool.and_eq_true, decide_eq_true_eq]

lemma getUint8_eq (buf : List Nat) (i : Nat) (h : i < buf.length) :
    getUint8 buf i = some (buf.getD i 0) := by
  simp [getUint8, List.getElem?_eq_getElem h]

lemma getUint8_none (buf : List Nat) (i : Nat) (h : buf.length ≤ i) :
    getUint8 buf i = none := by
  simp [getUint8, List.getElem?_eq_none h]

lemma getUint16LE_eq (buf : List Nat) (i : Nat) (h : i + 1 < buf.length) :
    getUint16LE buf i = some (wordAt buf i) := by
  simp [getUint16LE, wordAt, List.getElem?_eq_getElem (by omega : i < buf.length),
    List.getElem?_eq_getElem h]

lemma getUint16LE_none (buf : List Nat) (i : Nat) (h : buf.length ≤ i + 1) :
    getUint16LE buf i = none := by
  have h1 : buf[i + 1]? = none := List.getElem?_eq_none h
  cases hx : buf[i]? <;> simp [getUint16LE, hx, h1]

lemma parseSFLOAT_eq (buf : List Nat) (i : Nat) (h : i + 1 < buf.length) :
    parseSFLOAT buf i = some (parseSFLOATword (wordAt buf i)) := by
  simp [parseSFLOAT, getUint16LE_eq buf i h]

lemma parseSFLOAT_none (buf : List Nat) (i : Nat) (h : buf.length ≤ i + 1) :
    parseSFLOAT buf i = none := by
  simp [parseSFLOAT, getUint16LE_none buf i h]

lemma readTimestamp_eq (buf : List Nat) (i : Nat) (h : i + 7 ≤ buf.length) :
    readTimestamp buf i = some ⟨wordAt buf i, buf.getD (i + 2) 0, buf.getD (i + 3) 0,
      buf.getD (i + 4) 0, buf.getD (i + 5) 0, buf.getD (i + 6) 0⟩ := by
  simp [readTimestamp, getUint16LE_eq buf i (by omega),
    getUint8_eq buf (i + 2) (by omega), getUint8_eq buf (i + 3) (by omega),
    getUint8_eq buf (i + 4) (by omega), getUint8_eq buf (i + 5) (by omega),
    getUint8_eq buf (i + 6) (by omega)]

lemma readTimestamp_none (buf : List Nat) (i : Nat) (h : buf.length < i + 7) :
    readTimestamp buf i = none := by
  have h6 : getUint8 buf (i + 6) = none := getUint8_none _ _ (by omega)
  cases h0 : getUint16LE buf i <;> cases h2 : getUint8 buf (i + 2) <;>
    cases h3 : getUint8 buf (i + 3) <;> cases h4 : getUint8 buf (i + 4) <;>
    cases h5 : getUint8 buf (i + 5) <;>
    simp [readTimestamp, h0, h2, h3, h4, h5, h6]

lemma parseStatusField_eq (buf : List Nat) (flags : Nat) (m : Measurement)
    (index : Nat) (h : index + statusLen flags ≤ buf.length) :
    parseStatusField buf flags m index =
      some ({ m with status :=
          if flags &&& 16 = 16 then some (parseMeasurementStatus (wordAt buf index))
          else m.status },
        index + statusLen flags) := by
  by_cases hb : flags &&& 16 = 16
  · simp [statusLen, hb] at h
    simp [parseStatusField, hb, statusLen, getUint16LE_eq buf index (by omega)]
  · simp [parseStatusField, hb, statusLen]

lemma parseStatusField_none (buf : List Nat) (flags : Nat) (m : Measurement)
    (index : Nat) (hle : index ≤ buf.length)
    (h : buf.length < index + statusLen flags) :
    parseStatusField buf flags m index = none := by
  by_cases hb : flags &&& 16 = 16
  · simp [statusLen, hb] at h
    simp [parseStatusField, hb, getUint16LE_none buf index (by omega)]
  · simp [statusLen, hb] at h
    exact absurd hle (by omega)

lemma parseUserIdField_eq (buf : List Nat) (flags : Nat) (m : Measurement)
    (index : Nat) (h : index + userIdLen flags + statusLen flags ≤ buf.length) :
    parseUserIdField buf flags m index =
      some ({ m with
          userId :=
            if flags &&& 8 = 8 then some (buf.getD index 0) else m.userId,
          status :=
            if flags &&& 16 = 16 then
              some (parseMeasurementStatus (wordAt buf (index + userIdLen flags)))
            else m.status },
        index + userIdLen flags + statusLen flags) := by
  by_cases hb : flags &&& 8 = 8
  · simp only [userIdLen, if_pos hb] at h ⊢
    have hidx : index < buf.length := by omega
    rw [parseUserIdField, if_pos hb, getUint8_eq buf index hidx]
    exact parseStatusField_eq buf flags _ (index + 1) (by omega)
  · simp only [userIdLen, if_neg hb, Nat.add_zero] at h ⊢
    rw [parseUserIdField, if_neg hb]
    exact parseStatusField_eq buf flags m index (by omega)

lemma parseUserIdField_none (buf : List Nat) (flags : Nat) (m : Measurement)
    (index : Nat) (hle : index ≤ buf.length)
    (h : buf.length < index + userIdLen flags + statusLen flags) :
    parseUserIdField buf flags m index = none := by
  by_cases hb : flags &&& 8 = 8
  · simp only [userIdLen, if_pos hb] at h
    by_cases hr : index < buf.length
    · rw [parseUserIdField, if_pos hb, getUint8_eq buf index hr]
      exact parseStatusField_none buf flags _ (index + 1) (by omega) (by omega)
    · rw [parseUserIdField, if_pos hb, getUint8_none buf index (by omega)]
  · simp only [userIdLen, if_neg hb, Nat.add_zero] at h
    rw [parseUserIdField, if_neg hb]
    exact parseStatusField_none buf flags m index hle (by omega)

lemma parsePulseField_eq (buf : List Nat) (flags : Nat) (m : Measurement)
    (index : Nat)
    (h : index + pulseLen flags + userIdLen flags + statusLen flags ≤ buf.length) :
    parsePulseField buf flags m index =
      some ({ m with
          heartRate :=
            if flags &&& 4 = 4 then
              some (jsRound (parseSFLOATword (wordAt buf index)))
            else m.heartRate,
          userId :=
            if flags &&& 8 = 8 then some (buf.getD (index + pulseLen flags) 0)
            else m.userId,
          status :=
            if flags &&& 16 = 16 then
              some (parseMeasurementStatus
                (wordAt buf (index + pulseLen flags + userIdLen flags)))
            else m.status },
        index + pulseLen flags + userIdLen flags + statusLen flags) := by
  by_cases hb : flags &&& 4 = 4
  · simp only [pulseLen, if_pos hb] at h ⊢
    have hidx : index + 1 < buf.length := by omega
    rw [parsePulseField, if_pos hb, parseSFLOAT_eq buf index hidx]
    exact parseUserIdField_eq buf flags _ (index + 2) (by omega)
  · simp only [pulseLen, if_neg hb, Nat.add_zero] at h ⊢
    rw [parsePulseField, if_neg hb]
    exact parseUserIdField_eq buf flags m index (by omega)

lemma parsePulseField_none (buf : List Nat) (flags : Nat) (m : Measurement)
    (index : Nat) (hle : index ≤ buf.length)
    (h : buf.length < index + pulseLen flags + userIdLen flags + statusLen flags) :
    parsePulseField buf flags m index = none := by
  by_cases hb : flags &&& 4 = 4
  · simp only [pulseLen, if_pos hb] at h
    by_cases hr : index + 1 < buf.length
    · rw [parsePulseField, if_pos hb, parseSFLOAT_eq buf index hr]
      exact parseUserIdField_none buf flags _ (index + 2) (by omega) (by omega)
    · rw [parsePulseField, if_pos hb, parseSFLOAT_none buf index (by omega)]
  · simp only [pulseLen, if_neg hb, Nat.add_zero] at h
    rw [parsePulseField, if_neg hb]
    exact parseUserIdField_none buf flags m index hle (by omega)

lemma parseTimestampField_eq (buf : List Nat) (flags : Nat) (m : Measurement)
    (index : Nat)
    (h : index + tsLen flags + pulseLen flags + userIdLen flags + statusLen flags ≤ buf.length) :
    parseTimestampField buf flags m index =
      some ({ m with
          deviceTimestamp :=
            if flags &&& 2 = 2 then
              some ⟨wordAt buf index, buf.getD (index + 2) 0, buf.getD (index + 3) 0,
                buf.getD (index + 4) 0, buf.getD (index + 5) 0, buf.getD (index + 6) 0⟩
            else m.deviceTimestamp,
          heartRate :=
            if flags &&& 4 = 4 then
              some (jsRound (parseSFLOATword (wordAt buf (index + tsLen flags))))
            else m.heartRate,
          userId :=
            if flags &&& 8 = 8 then
              some (buf.getD (index + tsLen flags + pulseLen flags) 0)
            else m.userId,
          status :=
            if flags &&& 16 = 16 then
              some (parseMeasurementStatus
                (wordAt buf (index + tsLen flags + pulseLen flags + userIdLen flags)))
            else m.status },
        index + tsLen flags + pulseLen flags + userIdLen flags + statusLen flags) := by
  by_cases hb : flags &&& 2 = 2
  · simp only [tsLen, if_pos hb] at h ⊢
    rw [parseTimestampField, if_pos hb, readTimestamp_eq buf index (by omega)]
    exact parsePulseField_eq buf flags _ (index + 7) (by omega)
  · simp only [tsLen, if_neg hb, Nat.add_zero] at h ⊢
    rw [parseTimestampField, if_neg hb]
    exact parsePulseField_eq buf flags m index (by omega)

lemma parseTimestampField_none (buf : List Nat) (flags : Nat) (m : Measurement)
    (index : Nat) (hle : index ≤ buf.length)
    (h : buf.length < index + tsLen flags + pulseLen flags + userIdLen flags + statusLen flags) :
    parseTimestampField buf flags m index = none := by
  by_cases hb : flags &&& 2 = 2
  · simp only [tsLen, if_pos hb] at h
    by_cases hr : index + 7 ≤ buf.length
    · rw [parseTimestampField, if_pos hb, readTimestamp_eq buf index hr]
      exact parsePulseField_none buf flags _ (index + 7) (by omega) (by omega)
    · rw [parseTimestampField, if_pos hb, readTimestamp_none buf index (by omega)]
  · simp only [tsLen, if_neg hb, Nat.add_zero] at h
    rw [parseTimestampField, if_neg hb]
    exact parsePulseField_none buf flags m index hle (by omega)

/-- The full characterization of a successful parse: the measurement's fields
and the final cursor value, in terms of the raw bytes. -/
lemma parseMeasurementAux_eq (buf : List Nat) (flags : Nat)
    (h0 : buf[0]? = some flags) (hlen : demandedLen flags ≤ buf.length) :
    parseMeasurementAux buf =
      some
        (⟨convertBP (flags &&& 1 == 1) (parseSFLOATword (wordAt buf 1)),
          convertBP (flags &&& 1 == 1) (parseSFLOATword (wordAt buf 3)),
          convertBP (flags &&& 1 == 1) (parseSFLOATword (wordAt buf 5)),
          (if flags &&& 1 == 1 then "kPa" else "mmHg"),
          (if flags &&& 2 = 2 then
            some ⟨wordAt buf 7, buf.getD 9 0, buf.getD 10 0, buf.getD 11 0,
              buf.getD 12 0, buf.getD 13 0⟩
          else none),
          (if flags &&& 4 = 4 then
            some (jsRound (parseSFLOATword (wordAt buf (7 + tsLen flags))))
          else none),
          (if flags &&& 8 = 8 then
            some (buf.getD (7 + tsLen flags + pulseLen flags) 0)
          else none),
          (if flags &&& 16 = 16 then
            some (parseMeasurementStatus
              (wordAt buf (7 + tsLen flags + pulseLen flags + userIdLen flags)))
          else none)⟩,
        demandedLen flags) := by
  unfold demandedLen at hlen
  rw [parseMeasurementAux, show getUint8 buf 0 = some flags from h0,
    parseSFLOAT_eq buf 1 (by omega), parseSFLOAT_eq buf 3 (by omega),
    parseSFLOAT_eq buf 5 (by omega)]
  exact parseTimestampField_eq buf flags _ 7 (by omega)

/-- A buffer shorter than its flags byte demands always fails to parse. -/
lemma parseMeasurementAux_none (buf : List Nat) (flags : Nat)
    (h0 : buf[0]? = some flags) (hshort : buf.length < demandedLen flags) :
    parseMeasurementAux buf = none := by
  unfold demandedLen at hshort
  rw [parseMeasurementAux, show getUint8 buf 0 = some flags from h0]
  by_cases h7 : buf.length < 7
  · have h5 : parseSFLOAT buf 5 = none := parseSFLOAT_none buf 5 (by omega)
    cases h1 : parseSFLOAT buf 1 <;> cases h3 : parseSFLOAT buf 3 <;> simp [h1, h3, h5]
  · rw [parseSFLOAT_eq buf 1 (by omega), parseSFLOAT_eq buf 3 (by omega),
      parseSFLOAT_eq buf 5 (by omega)]
    exact parseTimestampField_none buf flags _ 7 (by omega) (by omega)

lemma and2_iff (n : Nat) : n &&& 2 = 2 ↔ n.testBit 1 = true := by
  have h := Nat.and_two_pow n 1
  rw [show (2 : ℕ) ^ 1 = 2 by norm_num] at h
  rw [h]
  cases n.testBit 1 <;> simp

lemma and4_iff (n : Nat) : n &&& 4 = 4 ↔ n.testBit 2 = true := by
  have h := Nat.and_two_pow n 2
  rw [show (2 : ℕ) ^ 2 = 4 by norm_num] at h
  rw [h]
  cases n.testBit 2 <;> simp

lemma and8_iff (n : Nat) : n &&& 8 = 8 ↔ n.testBit 3 = true := by
  have h := Nat.and_two_pow n 3
  rw [show (2 : ℕ) ^ 3 = 8 by norm_num] at h
  rw [h]
  cases n.testBit 3 <;> simp

lemma and16_iff (n : Nat) : n &&& 16 = 16 ↔ n.testBit 4 = true := by
  have h := Nat.and_two_pow n 4
  rw [show (2 : ℕ) ^ 4 = 16 by norm_num] at h
  rw [h]
  cases n.testBit 4 <;> simp

lemma getD_take (buf : List Nat) (n k : Nat) (h : k < n) :
    (buf.take n).getD k 0 = buf.getD k 0 := by
  simp [List.getD_eq_getElem?_getD, List.getElem?_take_of_lt h]

lemma wordAt_take (buf : List Nat) (n k : Nat) (h : k + 1 < n) :
    wordAt (buf.take n) k = wordAt buf k := by
  rw [wordAt, wordAt, getD_take buf n k (by omega), getD_take buf n (k + 1) h]

lemma demandedLen_pos (flags : Nat) : 7 ≤ demandedLen flags := by
  unfold demandedLen
  omega

/-- **C2.** For a buffer long enough for its flags byte, the parser succeeds;
the optional fields are populated exactly when flag bits 1–4 are set; the
fields sit at the running-cursor offsets 7, 7+ts, 7+ts+pulse, 7+ts+pulse+uid
with 7/2/1/2 bytes each; the parse consumes exactly the demanded bytes (the
final cursor equals the demanded length, bytes beyond it are never read, and
every strictly shorter prefix fails to parse). -/
theorem parser_flag_driven_layout (buf : List Nat) (flags : Nat)
    (hB : ∀ b ∈ buf, b < 256) (h0 : buf[0]? = some flags)
    (hlen : demandedLen flags ≤ buf.length) :
    ∃ m, parseMeasurementAux buf = some (m, demandedLen flags) ∧
      (m.deviceTimestamp.isSome = true ↔ flags.testBit 1 = true) ∧
      (m.heartRate.isSome = true ↔ flags.testBit 2 = true) ∧
      (m.userId.isSome = true ↔ flags.testBit 3 = true) ∧
      (m.status.isSome = true ↔ flags.testBit 4 = true) ∧
      (flags.testBit 1 = true →
        m.deviceTimestamp = some ⟨wordAt buf 7, buf.getD 9 0, buf.getD 10 0,
          buf.getD 11 0, buf.getD 12 0, buf.getD 13 0⟩) ∧
      (flags.testBit 2 = true →
        m.heartRate = some (jsRound (parseSFLOATword (wordAt buf (7 + tsLen flags))))) ∧
      (flags.testBit 3 = true →
        m.userId = some (buf.getD (7 + tsLen flags + pulseLen flags) 0)) ∧
      (flags.testBit 4 = true →
        m.status = some (parseMeasurementStatus
          (wordAt buf (7 + tsLen flags + pulseLen flags + userIdLen flags)))) ∧
      demandedLen flags =
        7 + (if flags.testBit 1 then 7 else 0) + (if flags.testBit 2 then 2 else 0) +
          (if flags.testBit 3 then 1 else 0) + (if flags.testBit 4 then 2 else 0) ∧
      parseMeasurementAux (buf.take (demandedLen flags)) = parseMeasurementAux buf ∧
      (∀ k, k < demandedLen flags → parseMeasurementAux (buf.take k) = none) := by
  refine ⟨_, parseMeasurementAux_eq buf flags h0 hlen, ?_, ?_, ?_, ?_, ?_, ?_, ?_, ?_,
    ?_, ?_, ?_⟩
  · by_cases hb : flags &&& 2 = 2
    · simp [hb, (and2_iff flags).mp hb]
    · have ht : ¬flags.testBit 1 = true := fun ht => hb ((and2_iff flags).mpr ht)
      simp [hb, ht]
  · by_cases hb : flags &&& 4 = 4
    · simp [hb, (and4_iff flags).mp hb]
    · have ht : ¬flags.testBit 2 = true := fun ht => hb ((and4_iff flags).mpr ht)
      simp [hb, ht]
  · by_cases hb : flags &&& 8 = 8
    · simp [hb, (and8_iff flags).mp hb]
    · have ht : ¬flags.testBit 3 = true := fun ht => hb ((and8_iff flags).mpr ht)
      simp [hb, ht]
  · by_cases hb : flags &&& 16 = 16
    · simp [hb, (and16_iff flags).mp hb]
    · have ht : ¬flags.testBit 4 = true := fun ht => hb ((and16_iff flags).mpr ht)
      simp [hb, ht]
  · intro ht
    simp [(and2_iff flags).mpr ht]
  · intro ht
    simp [(and4_iff flags).mpr ht]
  · intro ht
    simp [(and8_iff flags).mpr ht]
  · intro ht
    simp [(and16_iff flags).mpr ht]
  · simp only [demandedLen, tsLen, pulseLen, userIdLen, statusLen,
      and2_iff, and4_iff, and8_iff, and16_iff]
  · have hDpos : 0 < demandedLen flags := by have := demandedLen_pos flags; omega
    have h0' : (buf.take (demandedLen flags))[0]? = some flags := by
      rw [List.getElem?_take_of_lt hDpos]
      exact h0
    have hlen' : demandedLen flags ≤ (buf.take (demandedLen flags)).length := by
      rw [List.length_take]
      omega
    rw [parseMeasurementAux_eq _ flags h0' hlen', parseMeasurementAux_eq buf flags h0 hlen]
    have hD := demandedLen_pos flags
    have hw1 : wordAt (buf.take (demandedLen flags)) 1 = wordAt buf 1 :=
      wordAt_take buf _ 1 (by omega)
    have hw3 : wordAt (buf.take (demandedLen flags)) 3 = wordAt buf 3 :=
      wordAt_take buf _ 3 (by omega)
    have hw5 : wordAt (buf.take (demandedLen flags)) 5 = wordAt buf 5 :=
      wordAt_take buf _ 5 (by omega)
    rw [Option.some.injEq, Prod.mk.injEq]
    refine ⟨?_, rfl⟩
    rw [Measurement.mk.injEq]
    refine ⟨by rw [hw1], by rw [hw3], by rw [hw5], rfl, ?_, ?_, ?_, ?_⟩
    · by_cases hb : flags &&& 2 = 2
      · have hts : tsLen flags = 7 := by simp [tsLen, hb]
        have hD14 : 14 ≤ demandedLen flags := by unfold demandedLen; omega
        rw [if_pos hb, if_pos hb, wordAt_take buf _ 7 (by omega),
          getD_take buf _ 9 (by omega), getD_take buf _ 10 (by omega),
          getD_take buf _ 11 (by omega), getD_take buf _ 12 (by omega),
          getD_take buf _ 13 (by omega)]
      · rw [if_neg hb, if_neg hb]
    · by_cases hb : flags &&& 4 = 4
      · have hp : pulseLen flags = 2 := by simp [pulseLen, hb]
        have hbound : 7 + tsLen flags + 1 < demandedLen flags := by
          unfold demandedLen
          omega
        rw [if_pos hb, if_pos hb, wordAt_take buf _ (7 + tsLen flags) hbound]
      · rw [if_neg hb, if_neg hb]
    · by_cases hb : flags &&& 8 = 8
      · have hu : userIdLen flags = 1 := by simp [userIdLen, hb]
        have hbound : 7 + tsLen flags + pulseLen flags < demandedLen flags := by
          unfold demandedLen
          omega
        rw [if_pos hb, if_pos hb, getD_take buf _ (7 + tsLen flags + pulseLen flags) hbound]
      · rw [if_neg hb, if_neg hb]
    · by_cases hb : flags &&& 16 = 16
      · have hs : statusLen flags = 2 := by simp [statusLen, hb]
        have hbound : 7 + tsLen flags + pulseLen flags + userIdLen flags + 1 <
            demandedLen flags := by
          unfold demandedLen
          omega
        rw [if_pos hb, if_pos hb,
          wordAt_take buf _ (7 + tsLen flags + pulseLen flags + userIdLen flags) hbound]
      · rw [if_neg hb, if_neg hb]
  · intro k hk
    rcases Nat.eq_zero_or_pos k with h0k | h0k
    · subst h0k
      rw [List.take_zero]
      rfl
    · have h0' : (buf.take k)[0]? = some flags := by
        rw [List.getElem?_take_of_lt h0k]
        exact h0
      apply parseMeasurementAux_none _ flags h0'
      rw [List.length_take]
      omega

/-- Witness for C2 on `c2buf`. -/
theorem parser_flag_driven_layout_witness :
    ∃ m, parseMeasurementAux c2buf = some (m, demandedLen 30) ∧
      (m.deviceTimestamp.isSome = true ↔ (30 : Nat).testBit 1 = true) ∧
      (m.heartRate.isSome = true ↔ (30 : Nat).testBit 2 = true) ∧
      (m.userId.isSome = true ↔ (30 : Nat).testBit 3 = true) ∧
      (m.status.isSome = true ↔ (30 : Nat).testBit 4 = true) ∧
      ((30 : Nat).testBit 1 = true →
        m.deviceTimestamp = some ⟨wordAt c2buf 7, c2buf.getD 9 0, c2buf.getD 10 0,
          c2buf.getD 11 0, c2buf.getD 12 0, c2buf.getD 13 0⟩) ∧
      ((30 : Nat).testBit 2 = true →
        m.heartRate = some (jsRound (parseSFLOATword (wordAt c2buf (7 + tsLen 30))))) ∧
      ((30 : Nat).testBit 3 = true →
        m.userId = some (c2buf.getD (7 + tsLen 30 + pulseLen 30) 0)) ∧
      ((30 : Nat).testBit 4 = true →
        m.status = some (parseMeasurementStatus
          (wordAt c2buf (7 + tsLen 30 + pulseLen 30 + userIdLen 30)))) ∧
      demandedLen 30 =
        7 + (if (30 : Nat).testBit 1 then 7 else 0) + (if (30 : Nat).testBit 2 then 2 else 0) +
          (if (30 : Nat).testBit 3 then 1 else 0) + (if (30 : Nat).testBit 4 then 2 else 0) ∧
      parseMeasurementAux (c2buf.take (demandedLen 30)) = parseMeasurementAux c2buf ∧
      (∀ k, k < demandedLen 30 → parseMeasurementAux (c2buf.take k) = none) :=
  parser_flag_driven_layout c2buf 30 (by decide) (by decide) (by decide)

lemma jround_eq_of (q : ℚ) (n : ℤ) (h1 : (n : ℚ) ≤ q + 1 / 2)
    (h2 : q + 1 / 2 < (n : ℚ) + 1) : jround q = n := by
  rw [jround]
  exact Int.floor_eq_iff.mpr ⟨h1, h2⟩

lemma sfloat_16 : parseSFLOATword 61600 = JSNum.num 16 :=
  parseSFLOATword_num 61600 16 (by norm_num) (by norm_num) (by norm_num) (by norm_num)
    (by norm_num) (by norm_num)
    (by norm_num [sfloatSpecValue, sfloatSpecMantissa, sfloatSpecExponent])

lemma sfloat_107 : parseSFLOATword 61547 = JSNum.num (107 / 10) :=
  parseSFLOATword_num 61547 (107 / 10) (by norm_num) (by norm_num) (by norm_num)
    (by norm_num) (by norm_num) (by norm_num)
    (by norm_num [sfloatSpecValue, sfloatSpecMantissa, sfloatSpecExponent])

lemma sfloat_124 : parseSFLOATword 61564 = JSNum.num (124 / 10) :=
  parseSFLOATword_num 61564 (124 / 10) (by norm_num) (by norm_num) (by norm_num)
    (by norm_num) (by norm_num) (by norm_num)
    (by norm_num [sfloatSpecValue, sfloatSpecMantissa, sfloatSpecExponent])

lemma sfloat_70 : parseSFLOATword 70 = JSNum.num 70 :=
  parseSFLOATword_num 70 70 (by norm_num) (by norm_num) (by norm_num) (by norm_num)
    (by norm_num) (by norm_num)
    (by norm_num [sfloatSpecValue, sfloatSpecMantissa, sfloatSpecExponent])

/-- **C4, counterexample.** On `c4buf` the parser reports `originalUnit` kPa
and converts the pressures, but the pulse is reported as 70 — `Math.round`
of the decoded SFLOAT with no 7.50062 conversion — while the claim demands
`round(70 × 7.50062) = 525`. -/
theorem kpa_pulse_not_converted :
    (parseMeasurement c4buf).map Measurement.originalUnit = some "kPa" ∧
    (parseMeasurement c4buf).map Measurement.systolic = some (JSNum.num 120) ∧
    (parseMeasurement c4buf).map Measurement.heartRate = some (some (JSNum.num 70)) ∧
    ((jround ((70 : ℚ) * kPaFactor) : ℤ) : ℚ) = 525 ∧
    JSNum.num 70 ≠ JSNum.num 525 := by
  have hr120 : jround ((16 : ℚ) * kPaFactor) = 120 :=
    jround_eq_of _ 120 (by norm_num [kPaFactor]) (by norm_num [kPaFactor])
  have hr70 : jround ((70 : ℚ)) = 70 := jround_eq_of _ 70 (by norm_num) (by norm_num)
  have hr525 : jround ((70 : ℚ) * kPaFactor) = 525 :=
    jround_eq_of _ 525 (by norm_num [kPaFactor]) (by norm_num [kPaFactor])
  have hM := parseMeasurementAux_eq c4buf 5 (by decide) (by decide)
  refine ⟨?_, ?_, ?_, by rw [hr525]; norm_num, by simp⟩
  · rw [parseMeasurement, hM]
    rfl
  · rw [parseMeasurement, hM]
    simp [show wordAt c4buf 1 = 61600 from by decide, sfloat_16, convertBP,
      jsMulKPa, jsRound, hr120]
  · rw [parseMeasurement, hM]
    simp [show wordAt c4buf 7 = 70 from by decide, show tsLen 5 = 0 from by decide,
      show (5 : Nat) &&& 4 = 4 from by decide, sfloat_70, jsRound, hr70]

/-- **C4, amended.** With kPa flagged the three pressures are multiplied by
7.50062 and rounded and `originalUnit` is `"kPa"`; with it clear they are
reported unconverted with `"mmHg"`; the pulse rate, however, is only rounded,
never unit-converted. -/
theorem kpa_conversion_amended (buf : List Nat) (flags : Nat) (s d a : ℚ)
    (h0 : buf[0]? = some flags) (hlen : demandedLen flags ≤ buf.length)
    (hs : parseSFLOAT buf 1 = some (JSNum.num s))
    (hd : parseSFLOAT buf 3 = some (JSNum.num d))
    (ha : parseSFLOAT buf 5 = some (JSNum.num a)) :
    ∃ m, parseMeasurement buf = some m ∧
      m.originalUnit = (if flags &&& 1 = 1 then "kPa" else "mmHg") ∧
      m.systolic =
        (if flags &&& 1 = 1 then JSNum.num ((jround (s * kPaFactor) : ℤ) : ℚ)
         else JSNum.num s) ∧
      m.diastolic =
        (if flags &&& 1 = 1 then JSNum.num ((jround (d * kPaFactor) : ℤ) : ℚ)
         else JSNum.num d) ∧
      m.meanArterialPressure =
        (if flags &&& 1 = 1 then JSNum.num ((jround (a * kPaFactor) : ℤ) : ℚ)
         else JSNum.num a) ∧
      (∀ p : ℚ, flags &&& 4 = 4 →
        parseSFLOAT buf (7 + tsLen flags) = some (JSNum.num p) →
        m.heartRate = some (JSNum.num ((jround p : ℤ) : ℚ))) := by
  have hD := demandedLen_pos flags
  rw [parseSFLOAT_eq buf 1 (by omega)] at hs
  rw [parseSFLOAT_eq buf 3 (by omega)] at hd
  rw [parseSFLOAT_eq buf 5 (by omega)] at ha
  have hs' := Option.some.inj hs
  have hd' := Option.some.inj hd
  have ha' := Option.some.inj ha
  refine ⟨_, by rw [parseMeasurement, parseMeasurementAux_eq buf flags h0 hlen]; rfl,
    ?_, ?_, ?_, ?_, ?_⟩
  · by_cases hk : flags &&& 1 = 1 <;> simp [hk]
  · rw [show parseSFLOATword (wordAt buf 1) = JSNum.num s from hs']
    by_cases hk : flags &&& 1 = 1 <;>
      simp [hk, convertBP, jsMulKPa, jsRound]
  · rw [show parseSFLOATword (wordAt buf 3) = JSNum.num d from hd']
    by_cases hk : flags &&& 1 = 1 <;>
      simp [hk, convertBP, jsMulKPa, jsRound]
  · rw [show parseSFLOATword (wordAt buf 5) = JSNum.num a from ha']
    by_cases hk : flags &&& 1 = 1 <;>
      simp [hk, convertBP, jsMulKPa, jsRound]
  · intro p hb4 hp
    have hp2 : pulseLen flags = 2 := by simp [pulseLen, hb4]
    have hbound : 7 + tsLen flags + 1 < buf.length := by
      unfold demandedLen at hlen
      omega
    rw [parseSFLOAT_eq buf (7 + tsLen flags) hbound] at hp
    have hp' := Option.some.inj hp
    simp [hb4, hp', jsRound]

/-- Witness for C4 (amended) on `c4buf`. -/
theorem kpa_conversion_amended_witness :
    ∃ m, parseMeasurement c4buf = some m ∧
      m.originalUnit = (if 5 &&& 1 = 1 then "kPa" else "mmHg") ∧
      m.systolic =
        (if 5 &&& 1 = 1 then JSNum.num ((jround ((16 : ℚ) * kPaFactor) : ℤ) : ℚ)
         else JSNum.num 16) ∧
      m.diastolic =
        (if 5 &&& 1 = 1 then JSNum.num ((jround ((107 / 10 : ℚ) * kPaFactor) : ℤ) : ℚ)
         else JSNum.num (107 / 10)) ∧
      m.meanArterialPressure =
        (if 5 &&& 1 = 1 then JSNum.num ((jround ((124 / 10 : ℚ) * kPaFactor) : ℤ) : ℚ)
         else JSNum.num (124 / 10)) ∧
      (∀ p : ℚ, 5 &&& 4 = 4 →
        parseSFLOAT c4buf (7 + tsLen 5) = some (JSNum.num p) →
        m.heartRate = some (JSNum.num ((jround p : ℤ) : ℚ))) :=
  kpa_conversion_amended c4buf 5 16 (107 / 10) (124 / 10) (by decide) (by decide)
    (by rw [parseSFLOAT_eq c4buf 1 (by decide),
      show wordAt c4buf 1 = 61600 from by decide, sfloat_16])
    (by rw [parseSFLOAT_eq c4buf 3 (by decide),
      show wordAt c4buf 3 = 61547 from by decide, sfloat_107])
    (by rw [parseSFLOAT_eq c4buf 5 (by decide),
      show wordAt c4buf 5 = 61564 from by decide, sfloat_124])

/-- **C5, counterexample.** The one-byte buffer `[0]` is shorter than the
seven bytes its flags demand: the parse fails, and the failure propagates out
of the notification handler (there is no catch in `_handleMeasurement`)
instead of being surfaced distinctly. -/
theorem decode_error_escapes_handler :
    parseMeasurement [0] = none ∧
    handleMeasurement [0] = Except.error "RangeError" :=
  ⟨rfl, rfl⟩

/-- **C5, amended.** Every buffer strictly shorter than its flags byte
demands fails to produce a `Measurement` (the `DataView` read throws), and
the resulting `RangeError` propagates out of `_handleMeasurement`, which has
no try/catch. -/
theorem decode_error_amended (buf : List Nat) (flags : Nat)
    (h0 : buf[0]? = some flags) (hshort : buf.length < demandedLen flags) :
    parseMeasurement buf = none ∧
    handleMeasurement buf = Except.error "RangeError" := by
  have h := parseMeasurementAux_none buf flags h0 hshort
  constructor
  · rw [parseMeasurement, h]
    rfl
  · rw [handleMeasurement, parseMeasurement, h]
    rfl

/-- Witness for C5 (amended) on the buffer `[0]`. -/
theorem decode_error_amended_witness :
    parseMeasurement [0] = none ∧
    handleMeasurement [0] = Except.error "RangeError" :=
  decode_error_amended [0] 0 (by decide) (by decide)

/-- **C6, counterexample.** A fully connected service on which `disconnect()`
is called programmatically publishes no event at all — in particular no
`disconnected` event tagged `unexpected: false`. -/
theorem disconnect_publishes_no_event :
    (disconnect ⟨true, true, true, true⟩ ⟨true, true, false⟩).events = [] ∧
    EmittedEvent.disconnected false ∉
      (disconnect ⟨true, true, true, true⟩ ⟨true, true, false⟩).events := by
  refine ⟨rfl, by simp [disconnect]⟩

/-- **C6, amended.** The transport-disconnect callback publishes exactly one
`disconnected` event, always tagged `unexpected: true`; the programmatic
`disconnect()` method itself publishes no `disconnected` event. -/
theorem disconnected_event_tagging :
    (∀ s : ConnRefs, handleDisconnection s = (cleanedRefs, [EmittedEvent.disconnected true])) ∧
    (∀ (s : ConnRefs) (env : DisconnectEnv), (disconnect s env).events = []) :=
  ⟨fun _ => rfl, fun _ _ => rfl⟩

/-- **C9.** `disconnect()` never throws and always leaves every reference
`null` (so `isConnected()` is false); called on an already-disconnected
service it makes no transport call, publishes nothing and logs nothing, so a
second `disconnect()` is a no-op. -/
theorem disconnect_idempotent :
    ∀ (s : ConnRefs) (env env2 : DisconnectEnv),
      (disconnect s env).thrown = none ∧
      (disconnect s env).refs = cleanedRefs ∧
      (∀ b, isConnected (disconnect s env).refs b = false) ∧
      disconnect cleanedRefs env2 = ⟨cleanedRefs, [], [], [], none⟩ ∧
      disconnect (disconnect s env).refs env2 = ⟨(disconnect s env).refs, [], [], [], none⟩ :=
  fun _ _ _ => ⟨rfl, rfl, fun _ => rfl, rfl, rfl⟩

lemma connectAfterService_svcCalls (t : Transport) (s : ConnRefs) (l : List UUIDKey) :
    (connectAfterService t s l).svcCalls = l := by
  unfold connectAfterService
  cases t.getCharacteristicResult UUIDKey.bpMeasurement with
  | error e => rfl
  | ok u =>
    by_cases hn : t.supportsIndicateOrNotify = true
    · rw [if_pos hn]
      cases t.startNotificationsResult with
      | error e => rfl
      | ok u2 => rfl
    · rw [if_neg hn]

/-- **C7.** Once the device request and GATT connect have succeeded, the
`getPrimaryService` call sequence is exactly `[standard]` when the standard
lookup succeeds and exactly `[standard, vendor]` when it throws — one
fallback, never a second; the vendor UUID is never looked up more than
once. -/
theorem service_discovery_single_fallback (t : Transport) (s : ConnRefs)
    (hb : t.bluetoothAvailable = true)
    (hreq : t.requestDeviceResult = Except.ok ())
    (hgatt : t.gattConnectResult = Except.ok ()) :
    (connectToDevice t s).svcCalls =
      (match t.getPrimaryServiceResult UUIDKey.standardBP with
       | Except.ok _ => [UUIDKey.standardBP]
       | Except.error _ => [UUIDKey.standardBP, UUIDKey.omron]) ∧
    ((connectToDevice t s).svcCalls).count UUIDKey.omron ≤ 1 ∧
    ((connectToDevice t s).svcCalls).count UUIDKey.standardBP ≤ 1 := by
  have hcalls : (connectToDevice t s).svcCalls =
      (match t.getPrimaryServiceResult UUIDKey.standardBP with
       | Except.ok _ => [UUIDKey.standardBP]
       | Except.error _ => [UUIDKey.standardBP, UUIDKey.omron]) := by
    unfold connectToDevice
    rw [if_neg (by simp [hb]), hreq, hgatt]
    cases hstd : t.getPrimaryServiceResult UUIDKey.standardBP with
    | ok u => exact connectAfterService_svcCalls t _ _
    | error e =>
      cases hom : t.getPrimaryServiceResult UUIDKey.omron with
      | error e2 => rfl
      | ok u => exact connectAfterService_svcCalls t _ _
  refine ⟨hcalls, ?_, ?_⟩ <;> rw [hcalls] <;>
    cases t.getPrimaryServiceResult UUIDKey.standardBP <;> simp [List.count_cons]

/-- Witness for C7 on the all-success transport. -/
theorem service_discovery_single_fallback_witness :
    (connectToDevice tOk cleanedRefs).svcCalls =
      (match tOk.getPrimaryServiceResult UUIDKey.standardBP with
       | Except.ok _ => [UUIDKey.standardBP]
       | Except.error _ => [UUIDKey.standardBP, UUIDKey.omron]) ∧
    ((connectToDevice tOk cleanedRefs).svcCalls).count UUIDKey.omron ≤ 1 ∧
    ((connectToDevice tOk cleanedRefs).svcCalls).count UUIDKey.standardBP ≤ 1 :=
  service_discovery_single_fallback tOk cleanedRefs rfl rfl rfl

lemma connectAfterService_refs (t : Transport) (s : ConnRefs) (l : List UUIDKey) :
    (connectAfterService t s l).refs = cleanedRefs ∨
    (connectAfterService t s l).outcome = Except.ok () := by
  unfold connectAfterService
  cases t.getCharacteristicResult UUIDKey.bpMeasurement with
  | error e => exact Or.inl rfl
  | ok u =>
    by_cases hn : t.supportsIndicateOrNotify = true
    · rw [if_pos hn]
      cases t.startNotificationsResult with
      | error e => exact Or.inl rfl
      | ok u2 => exact Or.inr rfl
    · rw [if_neg hn]
      exact Or.inl rfl

lemma connectToDevice_refs (t : Transport) (s : ConnRefs)
    (hb : t.bluetoothAvailable = true) :
    (connectToDevice t s).refs = cleanedRefs ∨
    (connectToDevice t s).outcome = Except.ok () := by
  unfold connectToDevice
  rw [if_neg (by simp [hb])]
  cases t.requestDeviceResult with
  | error e => exact Or.inl rfl
  | ok u =>
    cases t.gattConnectResult with
    | error e => exact Or.inl rfl
    | ok u2 =>
      cases t.getPrimaryServiceResult UUIDKey.standardBP with
      | ok u3 => exact connectAfterService_refs t _ _
      | error e =>
        cases t.getPrimaryServiceResult UUIDKey.omron with
        | error e2 => exact Or.inl rfl
        | ok u3 => exact connectAfterService_refs t _ _

/-- **C10.** When `connectToDevice()` fails at any stage inside its try
block (device request, GATT connect, service discovery including the
fallback, characteristic retrieval or starting notifications), the catch
block has run `_cleanup()` before rethrowing: all four references are
`null` and `isConnected()` is false. -/
theorem failed_connect_resets_state (t : Transport) (s : ConnRefs) (e : String)
    (hb : t.bluetoothAvailable = true)
    (herr : (connectToDevice t s).outcome = Except.error e) :
    (connectToDevice t s).refs = cleanedRefs ∧
    (∀ b, isConnected (connectToDevice t s).refs b = false) := by
  rcases connectToDevice_refs t s hb with hr | hok
  · exact ⟨hr, fun b => by rw [hr]; rfl⟩
  · rw [hok] at herr
    simp at herr

/-- Witness for C10 on a transport whose device request fails, starting from
a partially populated state. -/
theorem failed_connect_resets_state_witness :
    (connectToDevice tCancel ⟨true, true, false, false⟩).refs = cleanedRefs ∧
    (∀ b, isConnected (connectToDevice tCancel ⟨true, true, false, false⟩).refs b = false) :=
  failed_connect_resets_state tCancel ⟨true, true, false, false⟩ "User cancelled" rfl rfl

lemma notifyLoop_spec (l : List Listener) (payload : EmittedEvent) :
    notifyLoop l payload =
      (l.map fun c => (c.id, payload),
       (l.filter fun c => c.throws).map fun _ => "listener threw") := by
  induction l with
  | nil => rfl
  | cons c rest ih =>
    rw [notifyLoop, ih]
    by_cases hc : c.throws = true
    · simp [invokeListener, hc, List.filter_cons]
    · simp [invokeListener, hc, List.filter_cons]

lemma getListeners_of_not_has (hub : EventHub) (e : String)
    (h : hubHas hub e = false) : getListeners hub e = [] := by
  induction hub with
  | nil => rfl
  | cons p t ih =>
    rw [hubHas, Bool.or_eq_false_iff] at h
    have hp : ¬p.1 = e := by simpa using h.1
    simp [getListeners, hp, ih h.2]

lemma getListeners_mapUpdate (hub : EventHub) (e : String) (c : Listener)
    (h : hubHas hub e = true) :
    getListeners (hub.map fun p => if p.1 == e then (p.1, setAdd p.2 c) else p) e =
      setAdd (getListeners hub e) c := by
  induction hub with
  | nil => simp [hubHas] at h
  | cons p t ih =>
    rw [hubHas, Bool.or_eq_true] at h
    by_cases hp : p.1 = e
    · simp [List.map_cons, getListeners, hp]
    · have h' : hubHas t e = true := by
        rcases h with h | h
        · exact absurd (by simpa using h) hp
        · exact h
      simp [List.map_cons, getListeners, hp]
      simpa using ih h'

lemma getListeners_append_new (hub : EventHub) (e : String) (c : Listener)
    (h : hubHas hub e = false) :
    getListeners
      (((hub ++ [(e, [])] : EventHub)).map fun p => if p.1 == e then (p.1, setAdd p.2 c) else p)
      e = [c] := by
  induction hub with
  | nil => simp [getListeners, setAdd]
  | cons p t ih =>
    rw [hubHas, Bool.or_eq_false_iff] at h
    have hp : ¬p.1 = e := by simpa using h.1
    simp [List.map_cons, getListeners, hp]
    simpa using ih h.2

lemma getListeners_add (hub : EventHub) (e : String) (c : Listener) :
    getListeners (addEventListener hub e c) e = setAdd (getListeners hub e) c := by
  rw [addEventListener]
  by_cases hh : hubHas hub e = true
  · rw [if_pos hh]
    exact getListeners_mapUpdate hub e c hh
  · rw [if_neg hh]
    rw [getListeners_append_new hub e c (by simpa using hh),
      getListeners_of_not_has hub e (by simpa using hh)]
    rfl

/-- **C8.** An emission invokes every callback registered for the event, in
registration order, each with the payload; a throwing callback's exception
is caught and logged so every remaining callback is still invoked;
registering a new callback appends it to the event's set (so registration
order is the stored order), and re-registering an existing one changes
nothing. -/
theorem event_hub_ordered_isolation :
    ∀ (hub : EventHub) (event : String) (payload : EmittedEvent),
      (hubHas hub event = true →
        (notifyListeners hub event payload).1 =
          (getListeners hub event).map fun c => (c.id, payload)) ∧
      (notifyListeners hub event payload).2 =
        ((getListeners hub event).filter fun c => c.throws).map
          (fun _ => "listener threw") ∧
      (∀ c, getListeners (addEventListener hub event c) event =
        setAdd (getListeners hub event) c) := by
  intro hub event payload
  refine ⟨?_, ?_, fun c => getListeners_add hub event c⟩
  · intro hh
    rw [notifyListeners, if_pos hh, notifyLoop_spec]
  · by_cases hh : hubHas hub event = true
    · rw [notifyListeners, if_pos hh, notifyLoop_spec]
    · rw [notifyListeners, if_neg hh,
        getListeners_of_not_has hub event (by simpa using hh)]
      rfl

/-- Witness for C8: a hub with a throwing first listener and a normal second
listener on `measurement`. -/
theorem event_hub_ordered_isolation_witness :
    (hubHas [("measurement", [⟨1, true⟩, ⟨2, false⟩])] "measurement" = true →
      (notifyListeners [("measurement", [⟨1, true⟩, ⟨2, false⟩])] "measurement"
          (EmittedEvent.disconnected true)).1 =
        (getListeners [("measurement", [⟨1, true⟩, ⟨2, false⟩])] "measurement").map
          fun c => (c.id, EmittedEvent.disconnected true)) ∧
    (notifyListeners [("measurement", [⟨1, true⟩, ⟨2, false⟩])] "measurement"
        (EmittedEvent.disconnected true)).2 =
      ((getListeners [("measurement", [⟨1, true⟩, ⟨2, false⟩])] "measurement").filter
        fun c => c.throws).map (fun _ => "listener threw") ∧
    (∀ c, getListeners
        (addEventListener [("measurement", [⟨1, true⟩, ⟨2, false⟩])] "measurement" c)
        "measurement" =
      setAdd (getListeners [("measurement", [⟨1, true⟩, ⟨2, false⟩])] "measurement") c) :=
  event_hub_ordered_isolation [("measurement", [⟨1, true⟩, ⟨2, false⟩])] "measurement"
    (EmittedEvent.disconnected true)

end HTN
